import Mathlib

/-!
Verification of the declaration-script front end (lexer, material parser,
entity parser) and the scene-export serializer of `bfg_forge.py`.

The Python source is shallowly embedded: Python strings become `List Char` /
`String`, Python floats become `ℚ`, fallible code returns `Except PErr`, and
the unbounded `while True` scanning loops take an explicit fuel argument
(`Nat`), consumed once per iteration.  Every loop of the source consumes
input on all paths exercised here, so any fuel of at least
`input length + 1` reproduces the Python behaviour; concrete runs below pass
an ample literal fuel.  Python in-place mutation of records is rendered as
functional record update threaded through the loops.
-/

namespace BfgForge

/-- Error outcomes of the embedded code.  `unexpectedQuote` is the lexer's
"quote in middle of token", `eofInQuote` its "eof in quoted token",
`tokenMismatch` the `expect_token` failure carrying expected token, the
token actually read (`none` = end of input) and the line counter.
`typeError` / `valueError` model the Python `TypeError` / `ValueError`
raised when `None` reaches a host setter, `.lower()`, or `float()` parses a
malformed literal.  `outOfFuel` is the embedding-only marker for exhausted
loop fuel. -/
inductive PErr where
  | unexpectedQuote : PErr
  | eofInQuote : PErr
  | tokenMismatch : String → Option String → Nat → PErr
  | typeError : PErr
  | valueError : PErr
  | outOfFuel : PErr
deriving DecidableEq, Repr

/-- Lexer state: `data` is the not-yet-consumed suffix of the file contents
(the Python class keeps the full text plus a cursor `pos`; consuming the
prefix is equivalent), `line` the 1-based line counter. -/
structure LexState where
  data : List Char
  line : Nat
deriving DecidableEq, Repr

/-- Decidable equality for `Except` results (kernel-reducible, so concrete
runs can be settled by `decide`). -/
instance exceptDecEq {ε α : Type} [DecidableEq ε] [DecidableEq α] :
    DecidableEq (Except ε α) := fun a b =>
  match a, b with
  | .error e, .error f =>
    if h : e = f then .isTrue (by rw [h])
    else .isFalse (fun hh => h (Except.error.inj hh))
  | .error _, .ok _ => .isFalse (fun hh => Except.noConfusion hh)
  | .ok _, .error _ => .isFalse (fun hh => Except.noConfusion hh)
  | .ok x, .ok y =>
    if h : x = y then .isTrue (by rw [h])
    else .isFalse (fun hh => h (Except.ok.inj hh))

/-- `Lexer.valid_token_chars`. -/
def validTokenChars : List Char :=
  "abcdefghijklmnopqrstuvwxyzABCDEFGHIJKLMNOPQRSTUVWXYZ0123456789_/\\-.&:".toList

/-- `Lexer.valid_single_tokens`. -/
def validSingleTokens : List Char :=
  "\x7b\x7d[]()+-*/%!=<>,".toList

/-- The inner loop of the `/* ... */` branch of `Lexer.skip_whitespace`,
entered with the cursor on the `*` of the opener (the Python loop starts on
the `/`, whose first iteration never matches `*` `/` and only advances):
advance until a `*` immediately followed by `/`, consume both, and stop; on
end of input stop silently with everything consumed. -/
def skipBlockComment : List Char → List Char
  | [] => []
  | c :: rest =>
    if c = '*' ∧ rest.head? = some '/' then rest.tail
    else skipBlockComment rest

/-- `Lexer.skip_whitespace`, fuelled.  Skips whitespace (counting newlines
into `line`), `//` line comments (leaving the terminating newline to be
counted by the next iteration) and `/* ... */` block comments (whose inner
newlines the Python code does not count).  Each iteration consumes at least
one character, so fuel `length + 1` (as supplied by `skipWhitespace`) never
runs out. -/
def skipWhitespaceF : Nat → List Char → Nat → List Char × Nat
  | 0, l, line => (l, line)
  | fuel + 1, l, line =>
    match l with
    | [] => ([], line)
    | c :: rest =>
      if c = '\n' then skipWhitespaceF fuel rest (line + 1)
      else if c.toNat ≤ 32 then skipWhitespaceF fuel rest line
      else if c = '/' ∧ rest.head? = some '/' then
        skipWhitespaceF fuel (rest.dropWhile (fun x => ¬ x = '\n')) line
      else if c = '/' ∧ rest.head? = some '*' then
        skipWhitespaceF fuel (skipBlockComment rest) line
      else (c :: rest, line)

/-- `Lexer.skip_whitespace` with its always-sufficient fuel. -/
def skipWhitespace (l : List Char) (line : Nat) : List Char × Nat :=
  skipWhitespaceF (l.length + 1) l line

/-- The quoted-token inner loop of `Lexer.parse_token`: after the opening
quote, consume up to the closing quote and return the verbatim content (no
escape processing); end of input first raises "eof in quoted token". -/
def parseQuoted : List Char → List Char → Except PErr (String × List Char)
  | [], _ => .error .eofInQuote
  | c :: rest, acc =>
    if c = '"' then .ok ((acc.reverse).asString, rest)
    else parseQuoted rest (c :: acc)

/-- The main accumulation loop of `Lexer.parse_token` (`acc` holds the
consumed token characters in reverse).  A quote at the very start enters
the quoted-token scan; a quote after other characters raises "quote in
middle of token"; `//` or `/*` end the token unconsumed; word characters
accumulate; a punctuation character from `validSingleTokens` is consumed
alone only when nothing has been accumulated; any other character ends the
token unconsumed. -/
def parseTokenLoop : List Char → List Char → Except PErr (String × List Char)
  | [], acc => .ok ((acc.reverse).asString, [])
  | c :: rest, acc =>
    if c = '"' then
      if acc = [] then parseQuoted rest []
      else .error .unexpectedQuote
    else if c = '/' ∧ (rest.head? = some '/' ∨ rest.head? = some '*') then
      .ok ((acc.reverse).asString, c :: rest)
    else if validTokenChars.contains c then
      parseTokenLoop rest (c :: acc)
    else if validSingleTokens.contains c ∧ acc = [] then
      .ok (String.mk [c], rest)
    else
      .ok ((acc.reverse).asString, c :: rest)

/-- `Lexer.parse_token`: skip whitespace, return `none` at end of input,
otherwise the next token. -/
def parseTok (s : LexState) : Except PErr (Option String × LexState) :=
  match skipWhitespace s.data s.line with
  | ([], line) => .ok (none, ⟨[], line⟩)
  | (c :: rest, line) =>
    match parseTokenLoop (c :: rest) [] with
    | .error e => .error e
    | .ok (t, remaining) => .ok (some t, ⟨remaining, line⟩)

/-- `Lexer.expect_token`: read one token and fail with a mismatch error
(also on end of input) unless it equals `tok`. -/
def expectToken (s : LexState) (tok : String) : Except PErr LexState :=
  match parseTok s with
  | .error e => .error e
  | .ok (t, s') =>
    if t = some tok then .ok s'
    else .error (.tokenMismatch tok t s'.line)

/-- The counting loop of `Lexer.skip_bracket_delimiter_section`, entered
with `n` closings outstanding (the Python `num_required_closing`, an `Int`):
end of input breaks silently, an opening token increments the count, a
closing token decrements it and stops at zero, everything else is
discarded. -/
def skipBracketLoop : Nat → LexState → String → String → Int →
    Except PErr LexState
  | 0, _, _, _, _ => .error .outOfFuel
  | fuel + 1, s, opening, closing, n =>
    match parseTok s with
    | .error e => .error e
    | .ok (none, s') => .ok s'
    | .ok (some t, s') =>
      if t = opening then skipBracketLoop fuel s' opening closing (n + 1)
      else if t = closing then
        if n - 1 = 0 then .ok s'
        else skipBracketLoop fuel s' opening closing (n - 1)
      else skipBracketLoop fuel s' opening closing n

/-- `Lexer.skip_bracket_delimiter_section`: expect the opening token, then
run the counting loop starting from one outstanding closing. -/
def skipBracketDelimiterSection (fuel : Nat) (s : LexState)
    (opening closing : String) : Except PErr LexState :=
  match expectToken s opening with
  | .error e => .error e
  | .ok s' => skipBracketLoop fuel s' opening closing 1

/-- Python `str.rstrip(c)` for a single-character strip set: remove every
trailing occurrence of `c`. -/
def pyRstrip (s : String) (c : Char) : String :=
  ((s.toList.reverse.dropWhile (fun x => x = c)).reverse).asString

/-- Rational multiplication, spelled through the `mkRat` smart constructor
so that concrete runs reduce inside the kernel (the library's `Rat.mul` is
deliberately irreducible); it agrees with `Rat.mul`. -/
def qMul (a b : ℚ) : ℚ :=
  mkRat (a.num * b.num) (a.den * b.den)

/-- Rational addition through `mkRat` (see `qMul`); agrees with
`Rat.add`. -/
def qAdd (a b : ℚ) : ℚ :=
  mkRat (a.num * (b.den : ℤ) + b.num * (a.den : ℤ)) (a.den * b.den)

/-- Round a nonnegative rational to the nearest integer, ties to even —
the rounding performed by Python's fixed-point `"%f"` formatting on the
exactly-represented value.  `⌊q + 1/2⌋` computed on numerator/denominator;
on a tie (`q + 1/2` integral) the even neighbour is chosen. -/
def roundHalfEven (q : ℚ) : ℤ :=
  let t : ℤ := 2 * q.num + (q.den : ℤ)
  let d : ℤ := 2 * (q.den : ℤ)
  let fl := t / d
  if t % d = 0 ∧ ¬ fl % 2 = 0 then fl - 1 else fl

/-- Python `"%f" % a`: sign, integer part, and exactly six fractional
digits (zero-padded).  The sign and magnitude are read off the (always
reduced) numerator. -/
def formatF (a : ℚ) : String :=
  let neg := a.num < 0
  let m := if neg then -a else a
  let n : Nat := (roundHalfEven (qMul m 1000000)).toNat
  let ip := n / 1000000
  let fp := n % 1000000
  let fstr := toString fp
  let pad := (List.replicate (6 - fstr.length) '0').asString
  (if neg then "-" else "") ++ toString ip ++ "." ++ pad ++ fstr

/-- `ftos`: `("%f" % a).rstrip('0').rstrip('.')`. -/
def ftos (a : ℚ) : String :=
  pyRstrip (pyRstrip (formatF a) '0') '.'

/-- Python truthiness of an optional string: `None` and `""` are falsy. -/
def pyTruthy (o : Option String) : Bool :=
  !(o.getD "" == "")

/-- ASCII lower-casing of one character (`str.lower` on the ASCII keyword
tokens compared case-insensitively by the material parser). -/
def lowerChar (c : Char) : Char :=
  if 65 ≤ c.toNat ∧ c.toNat ≤ 90 then Char.ofNat (c.toNat + 32) else c

/-- Python `str.lower()` restricted to ASCII (all compared keywords are
ASCII); spelled over the character list so concrete runs reduce in the
kernel. -/
def pyLower (s : String) : String :=
  (s.toList.map lowerChar).asString

/-- An entity declaration record (`EntityPropGroup`); `bpy` string
properties default to `""`. -/
structure EntityRec where
  name : String
  color : String := ""
  usage : String := ""
  mins : String := ""
  maxs : String := ""
deriving DecidableEq, Repr

/-- Name lookup in the scene's entity collection (`name in scene.bfg.entities`
— first record with the given name; insertion order preserved). -/
def findEntity (t : List EntityRec) (n : String) : Option EntityRec :=
  t.find? (fun e => e.name = n)

/-- Store `r` under name `n`: the Python code mutates the looked-up record
in place (keeping its position) or `add()`s a fresh record at the end. -/
def storeEntity : List EntityRec → String → EntityRec → List EntityRec
  | [], _, r => [r]
  | e :: rest, n, r =>
    if e.name = n then r :: rest else e :: storeEntity rest n r

/-- The attribute reset performed for every `entityDef` before its body is
rescanned: `color = "0 0 1"`, `mins = maxs = usage = ""`. -/
def resetEnt (n : String) : EntityRec :=
  { name := n, color := "0 0 1", mins := "", maxs := "", usage := "" }

/-- The brace-tracked body scan of `ImportEntities.parse_def_file`
(starting at `num_required_closing = 1`): end of input stops silently;
braces only adjust the count; the four `editor_*` keys each consume one
following token verbatim as their value (at any depth — the Python `elif`
chain performs no depth test); every other token is ignored.  A key whose
value token is missing (end of input) would assign `None` to a `bpy`
string property, a `TypeError`. -/
def parseDefBody : Nat → LexState → Int → EntityRec →
    Except PErr (EntityRec × LexState)
  | 0, _, _, _ => .error .outOfFuel
  | fuel + 1, s, nrc, ent =>
    match parseTok s with
    | .error e => .error e
    | .ok (none, s') => .ok (ent, s')
    | .ok (some tok, s') =>
      if tok = "\x7b" then parseDefBody fuel s' (nrc + 1) ent
      else if tok = "\x7d" then
        if nrc - 1 = 0 then .ok (ent, s')
        else parseDefBody fuel s' (nrc - 1) ent
      else if tok = "editor_color" then
        match parseTok s' with
        | .error e => .error e
        | .ok (none, _) => .error .typeError
        | .ok (some v, s₂) => parseDefBody fuel s₂ nrc { ent with color := v }
      else if tok = "editor_mins" then
        match parseTok s' with
        | .error e => .error e
        | .ok (none, _) => .error .typeError
        | .ok (some v, s₂) => parseDefBody fuel s₂ nrc { ent with mins := v }
      else if tok = "editor_maxs" then
        match parseTok s' with
        | .error e => .error e
        | .ok (none, _) => .error .typeError
        | .ok (some v, s₂) => parseDefBody fuel s₂ nrc { ent with maxs := v }
      else if tok = "editor_usage" then
        match parseTok s' with
        | .error e => .error e
        | .ok (none, _) => .error .typeError
        | .ok (some v, s₂) => parseDefBody fuel s₂ nrc { ent with usage := v }
      else parseDefBody fuel s' nrc ent

/-- Processing of one `entityDef` after its name token: the record is reset
to defaults (whether looked up or freshly created), the opening brace is
expected, and the body is rescanned starting from the reset record. -/
def parseDefOne (fuel : Nat) (s : LexState) (n : String) :
    Except PErr (EntityRec × LexState) :=
  match expectToken s "\x7b" with
  | .error e => .error e
  | .ok s' => parseDefBody fuel s' 1 (resetEnt n)

/-- Top-level loop of `ImportEntities.parse_def_file`: any token other than
`entityDef` is skipped together with a name token and one balanced brace
section; `entityDef` captures the next token as the entity name, counts an
update (existing name) or a creation (new name), and parses the body via
`parseDefOne`.  A missing name token (`None`) would reach `bpy` collection
lookup, a `TypeError`. -/
def parseDefTop : Nat → LexState → List EntityRec → Nat → Nat →
    Except PErr (List EntityRec × Nat × Nat)
  | 0, _, _, _, _ => .error .outOfFuel
  | fuel + 1, s, entities, created, updated =>
    match parseTok s with
    | .error e => .error e
    | .ok (none, _) => .ok (entities, created, updated)
    | .ok (some tok, s') =>
      if ¬ tok = "entityDef" then
        match parseTok s' with
        | .error e => .error e
        | .ok (_, s₂) =>
          match skipBracketDelimiterSection fuel s₂ "\x7b" "\x7d" with
          | .error e => .error e
          | .ok s₃ => parseDefTop fuel s₃ entities created updated
      else
        match parseTok s' with
        | .error e => .error e
        | .ok (none, _) => .error .typeError
        | .ok (some n, s₂) =>
          let cu :=
            if (findEntity entities n).isSome then (created, updated + 1)
            else (created + 1, updated)
          match parseDefOne fuel s₂ n with
          | .error e => .error e
          | .ok (rec, s₃) =>
            parseDefTop fuel s₃ (storeEntity entities n rec) cu.1 cu.2

/-- `ImportEntities.parse_def_file` on file contents `content` against the
current entity table; returns the table plus `(created, updated)`. -/
def parseDefFile (fuel : Nat) (content : String) (entities : List EntityRec) :
    Except PErr (List EntityRec × Nat × Nat) :=
  parseDefTop fuel ⟨content.toList, 1⟩ entities 0 0

/-- A material declaration record (`MaterialDeclPropGroup`); string
properties default to `""`, `heightmap_scale` (a float property) to `0`
— its source comment: "0 if normal_texture isn't a heightmap". -/
structure MaterialDecl where
  name : String
  diffuse_texture : String := ""
  editor_texture : String := ""
  heightmap_scale : ℚ := 0
  normal_texture : String := ""
  specular_texture : String := ""
  texture : String := ""
deriving DecidableEq, Repr

/-- Name lookup in the material collection. -/
def findMaterial (t : List MaterialDecl) (n : String) : Option MaterialDecl :=
  t.find? (fun d => d.name = n)

/-- Store a material record under its name (in-place update or append,
as for entities). -/
def storeMaterial : List MaterialDecl → String → MaterialDecl →
    List MaterialDecl
  | [], _, r => [r]
  | d :: rest, n, r =>
    if d.name = n then r :: rest else d :: storeMaterial rest n r

/-- Python `float(s)` restricted to the plain decimal literals the material
scripts use: optional sign, digits with an optional single decimal point
(at least one digit).  Anything else — including exponent forms, which no
`heightmap(...)` argument uses — is mapped to `none` (a `ValueError`). -/
def pyFloat? (s : String) : Option ℚ :=
  let l := s.toList
  let (sgn, l) : ℚ × List Char :=
    match l with
    | '-' :: r => (-1, r)
    | '+' :: r => (1, r)
    | _ => (1, l)
  let ipart := l.takeWhile (fun c => c.isDigit)
  let rest := l.dropWhile (fun c => c.isDigit)
  let digitsNat : List Char → Nat := fun ds =>
    ds.foldl (fun n c => n * 10 + (c.toNat - 48)) 0
  match rest with
  | [] =>
    if ipart = [] then none
    else some (qMul sgn (mkRat (digitsNat ipart : Int) 1))
  | '.' :: frac =>
    if frac.all (fun c => c.isDigit) ∧ ¬ (ipart = [] ∧ frac = []) then
      some (qMul sgn (qAdd (mkRat (digitsNat ipart : Int) 1)
        (mkRat (digitsNat frac : Int) (10 ^ frac.length))))
    else none
  | _ => none

/-- `ImportMaterials.parse_heightmap`: `(` texture `,` scale `)`; the scale
token goes through `float(...)`; a missing scale token is a `TypeError`
(`float(None)`), a malformed one a `ValueError`.  The texture token may be
absent (`None`) — returned as `none` and handled at the assignment site. -/
def parseHeightmap (s : LexState) :
    Except PErr ((Option String × ℚ) × LexState) :=
  match expectToken s "(" with
  | .error e => .error e
  | .ok s₁ =>
    match parseTok s₁ with
    | .error e => .error e
    | .ok (tex, s₂) =>
      match expectToken s₂ "," with
      | .error e => .error e
      | .ok s₃ =>
        match parseTok s₃ with
        | .error e => .error e
        | .ok (none, _) => .error .typeError
        | .ok (some sc, s₄) =>
          match pyFloat? sc with
          | none => .error .valueError
          | some q =>
            match expectToken s₄ ")" with
            | .error e => .error e
            | .ok s₅ => .ok ((tex, q), s₅)

/-- The per-stage scratch variables of the material body scan. -/
structure StageSt where
  in_stage : Bool
  stage_blend : Option String
  stage_heightmap_scale : ℚ
  stage_texture : Option String
deriving DecidableEq, Repr

/-- Stage-close commit (the `num_required_closing == 1` arm of the body
scan): a truthy captured stage texture is written to the generic `texture`
field; if the captured blend keyword is also truthy and names a recognized
kind, the corresponding typed field is overwritten (`bumpmap` also writes
the captured heightmap scale). -/
def commitStage (st : StageSt) (decl : MaterialDecl) : MaterialDecl :=
  let d1 :=
    if pyTruthy st.stage_texture then
      { decl with texture := st.stage_texture.getD "" }
    else decl
  if pyTruthy st.stage_blend ∧ pyTruthy st.stage_texture then
    let t := st.stage_texture.getD ""
    let b := pyLower (st.stage_blend.getD "")
    if b = "bumpmap" then
      { d1 with normal_texture := t,
                heightmap_scale := st.stage_heightmap_scale }
    else if b = "diffusemap" then { d1 with diffuse_texture := t }
    else if b = "specularmap" then { d1 with specular_texture := t }
    else d1
  else d1

/-- The brace-tracked body scan of `ImportMaterials.parse_material_file`
(starting at `num_required_closing = 1`): end of input stops silently.
Brace bookkeeping runs first: an opening brace reaching depth 2 enters a
stage and resets the stage variables; a closing brace reaching depth 0 ends
the decl, reaching depth 1 leaves the stage and commits it via
`commitStage`.  The keyword phase then inspects the same token with the
updated `in_stage` flag (for a brace token it matches nothing, as in the
source): in a stage, `blend` captures the next token and `map` the next
token or a `heightmap(tex, scale)` form; at decl-body level `bumpmap`
(plain or heightmap form), `diffusemap`, `qer_editorimage` and
`specularmap` write the decl fields directly.  Keyword matching is
case-insensitive.  A missing value token (`None`) hitting `.lower()` or a
`bpy` setter is a `TypeError`. -/
def parseMatBody : Nat → LexState → Int → StageSt → MaterialDecl →
    Except PErr (MaterialDecl × LexState)
  | 0, _, _, _, _ => .error .outOfFuel
  | fuel + 1, s, nrc, st, decl =>
    match parseTok s with
    | .error e => .error e
    | .ok (none, s') => .ok (decl, s')
    | .ok (some tok, s') =>
      let bk :
          Int × StageSt × MaterialDecl × Bool :=
        if tok = "\x7b" then
          let nrc' := nrc + 1
          if nrc' = 2 then (nrc', ⟨true, none, 0, none⟩, decl, false)
          else (nrc', st, decl, false)
        else if tok = "\x7d" then
          let nrc' := nrc - 1
          if nrc' = 0 then (nrc', st, decl, true)
          else if nrc' = 1 then
            (nrc', { st with in_stage := false }, commitStage st decl, false)
          else (nrc', st, decl, false)
        else (nrc, st, decl, false)
      match bk with
      | (nrc', st₁, decl₁, done) =>
        if done then .ok (decl₁, s')
        else if st₁.in_stage then
          if pyLower tok = "blend" then
            match parseTok s' with
            | .error e => .error e
            | .ok (b, s₂) =>
              parseMatBody fuel s₂ nrc' { st₁ with stage_blend := b } decl₁
          else if pyLower tok = "map" then
            match parseTok s' with
            | .error e => .error e
            | .ok (none, _) => .error .typeError
            | .ok (some t, s₂) =>
              if pyLower t = "heightmap" then
                match parseHeightmap s₂ with
                | .error e => .error e
                | .ok ((tex, sc), s₃) =>
                  parseMatBody fuel s₃ nrc'
                    { st₁ with stage_texture := tex,
                               stage_heightmap_scale := sc } decl₁
              else
                parseMatBody fuel s₂ nrc'
                  { st₁ with stage_texture := some t } decl₁
          else parseMatBody fuel s' nrc' st₁ decl₁
        else
          if pyLower tok = "bumpmap" then
            match parseTok s' with
            | .error e => .error e
            | .ok (none, _) => .error .typeError
            | .ok (some t, s₂) =>
              if pyLower t = "heightmap" then
                match parseHeightmap s₂ with
                | .error e => .error e
                | .ok ((none, _), _) => .error .typeError
                | .ok ((some tex, sc), s₃) =>
                  parseMatBody fuel s₃ nrc' st₁
                    { decl₁ with normal_texture := tex,
                                 heightmap_scale := sc }
              else
                parseMatBody fuel s₂ nrc' st₁
                  { decl₁ with normal_texture := t }
          else if pyLower tok = "diffusemap" then
            match parseTok s' with
            | .error e => .error e
            | .ok (none, _) => .error .typeError
            | .ok (some t, s₂) =>
              parseMatBody fuel s₂ nrc' st₁ { decl₁ with diffuse_texture := t }
          else if pyLower tok = "qer_editorimage" then
            match parseTok s' with
            | .error e => .error e
            | .ok (none, _) => .error .typeError
            | .ok (some t, s₂) =>
              parseMatBody fuel s₂ nrc' st₁ { decl₁ with editor_texture := t }
          else if pyLower tok = "specularmap" then
            match parseTok s' with
            | .error e => .error e
            | .ok (none, _) => .error .typeError
            | .ok (some t, s₂) =>
              parseMatBody fuel s₂ nrc' st₁
                { decl₁ with specular_texture := t }
          else parseMatBody fuel s' nrc' st₁ decl₁

/-- Top-level loop of `ImportMaterials.parse_material_file`: `particle`,
`skin` and `table` declarations are skipped (name token plus one balanced
brace section); otherwise the token (or, after a literal `material`, the
next token) is the decl name.  An existing decl is updated in place —
fields carry over, no reset — a new one starts from the property defaults.
The body is then scanned from depth 1 with cleared stage variables. -/
def parseMatTop : Nat → LexState → List MaterialDecl → Nat → Nat →
    Except PErr (List MaterialDecl × Nat × Nat)
  | 0, _, _, _, _ => .error .outOfFuel
  | fuel + 1, s, mats, created, updated =>
    match parseTok s with
    | .error e => .error e
    | .ok (none, _) => .ok (mats, created, updated)
    | .ok (some tok, s') =>
      if tok = "particle" ∨ tok = "skin" ∨ tok = "table" then
        match parseTok s' with
        | .error e => .error e
        | .ok (_, s₂) =>
          match skipBracketDelimiterSection fuel s₂ "\x7b" "\x7d" with
          | .error e => .error e
          | .ok s₃ => parseMatTop fuel s₃ mats created updated
      else
        match
          (if tok = "material" then
            match parseTok s' with
            | .error e => .error e
            | .ok (none, _) => .error .typeError
            | .ok (some n, s₂) => .ok (n, s₂)
          else (.ok (tok, s') : Except PErr (String × LexState))) with
        | .error e => .error e
        | .ok (n, s₂) =>
          let start :=
            match findMaterial mats n with
            | some d => (d, created, updated + 1)
            | none => (({ name := n } : MaterialDecl), created + 1, updated)
          match expectToken s₂ "\x7b" with
          | .error e => .error e
          | .ok s₃ =>
            match parseMatBody fuel s₃ 1 ⟨false, none, 0, none⟩ start.1 with
            | .error e => .error e
            | .ok (decl, s₄) =>
              parseMatTop fuel s₄ (storeMaterial mats n decl)
                start.2.1 start.2.2

/-- `ImportMaterials.parse_material_file` on file contents `content`;
returns the material table plus `(created, updated)`. -/
def parseMatFile (fuel : Nat) (content : String)
    (mats : List MaterialDecl) : Except PErr (List MaterialDecl × Nat × Nat) :=
  parseMatTop fuel ⟨content.toList, 1⟩ mats 0 0

/-- `_scale_to_game`: 64 editor units per engine unit. -/
def scaleToGame : ℚ := 64

/-- A 3-vector of exact coordinates (the embedding of Blender floats). -/
abbrev V3 := ℚ × ℚ × ℚ

/-- A 2-vector (UV coordinates). -/
abbrev V2 := ℚ × ℚ

/-- One mesh vertex: position and normal (per-vertex, as in Blender). -/
structure MVertex where
  co : V3
  normal : V3
deriving DecidableEq, Repr

/-- One mesh loop (face corner): the source vertex it references.  Its own
index doubles as the index into the UV layer. -/
structure MLoop where
  vertex_index : Nat
deriving DecidableEq, Repr

/-- One mesh polygon: material slot index and the loop indices of its
corners, in order. -/
structure MPolygon where
  material_index : Nat
  loop_indices : List Nat
deriving DecidableEq, Repr

/-- The finalized mesh handed to `ExportMap.create_primitive` by the host:
the result of `to_mesh`, the world-transform bake and the
`quads_convert_to_tris` triangulation (host operators outside this
repository).  `uv` is `uv_layers[0].data`, indexed by loop index. -/
structure Mesh where
  vertices : List MVertex
  loops : List MLoop
  uv : List V2
  polygons : List MPolygon
deriving DecidableEq, Repr

/-- One output vertex of a primitive: scaled position, UV, normal. -/
structure PrimVert where
  xyz : V3
  st : V2
  normal : V3
deriving DecidableEq, Repr

/-- One output polygon: material-slot name and split-vertex indices. -/
structure PrimPoly where
  material : String
  indices : List Nat
deriving DecidableEq, Repr

/-- The primitive dictionary produced by `create_primitive`. -/
structure Prim where
  primitive : Nat
  verts : List PrimVert
  polygons : List PrimPoly
deriving DecidableEq, Repr

/-- The `vert_map` of `create_primitive`: one slot per source vertex,
holding — in polygon/corner traversal order — the loop indices whose
corner uses that vertex (the Python stores `[newIndex, loop.index]` pairs
and fills `newIndex` in a second pass; the new indices are recovered
positionally below).  Out-of-range indices would raise in Python; here
`List.set` / `getD` make the function total and the theorems assume valid
meshes.  `vmStep` is the loop body: record loop index `li` under its
corner's source vertex. -/
def vmStep (mesh : Mesh) (vm : List (List Nat)) (li : Nat) : List (List Nat) :=
  let v := (mesh.loops.getD li ⟨0⟩).vertex_index
  vm.set v (vm.getD v [] ++ [li])

/-- The filled `vert_map` slots (see `vmStep`). -/
def vertMapLists (mesh : Mesh) : List (List Nat) :=
  (mesh.polygons.flatMap (fun p => p.loop_indices)).foldl (vmStep mesh)
    (List.replicate mesh.vertices.length [])

/-- The sequential renumbering of `create_primitive`'s second pass: the
entry for loop `li` (under its source vertex's slot) receives the number
of entries preceding it in vertex-slot order. -/
def newVertIndex (mesh : Mesh) (li : Nat) : Nat :=
  let vm := vertMapLists mesh
  let v := (mesh.loops.getD li ⟨0⟩).vertex_index
  ((vm.take v).map List.length).sum + (vm.getD v []).findIdx (fun x => x = li)

/-- The `verts` array of `create_primitive`: for each source vertex in
order, one output vertex per recorded (vertex, corner) use — position
scaled by `_scale_to_game`, UV and normal unscaled. -/
def primVerts (mesh : Mesh) : List PrimVert :=
  (mesh.vertices.zip (vertMapLists mesh)).flatMap
    (fun p =>
      p.2.map (fun li =>
        { xyz := (qMul p.1.co.1 scaleToGame, qMul p.1.co.2.1 scaleToGame,
                  qMul p.1.co.2.2 scaleToGame),
          st := mesh.uv.getD li (0, 0),
          normal := p.1.normal }))

/-- The `polygons` array of `create_primitive`: per polygon, the
material-slot name and, per corner, the split-vertex index found by
matching the corner's loop index in `vert_map`. -/
def primPolygons (mesh : Mesh) (slots : List String) : List PrimPoly :=
  mesh.polygons.map (fun p =>
    { material := slots.getD p.material_index "",
      indices := p.loop_indices.map (fun li => newVertIndex mesh li) })

/-- `ExportMap.create_primitive` on the host-finalized mesh. -/
def createPrimitive (mesh : Mesh) (slots : List String) (index : Nat) : Prim :=
  { primitive := index, verts := primVerts mesh, polygons := primPolygons mesh slots }

/-- A JSON-serializable scalar as produced by the export code: the
`json.dump` output distinguishes strings from numbers. -/
inductive PyVal where
  | str : String → PyVal
  | int : Int → PyVal
deriving DecidableEq, Repr

/-- `obj.bfg.type` values relevant to export. -/
inductive BfgType where
  | NONE | ENTITY | STATIC_MODEL
deriving DecidableEq, Repr

/-- `obj.type` values relevant to export. -/
inductive ObjType where
  | MESH | LAMP
deriving DecidableEq, Repr

/-- Lamp datablock fields read by the exporter. -/
structure LampData where
  distance : ℚ
  color : V3
  use_specular : Bool
  use_diffuse : Bool
deriving DecidableEq, Repr

/-- A scene object as the exporter sees it.  `export_mesh` / `slots` are
the host-finalized mesh data used when the object is in the worldspawn
group. -/
structure SceneObject where
  name : String
  obj_type : ObjType
  bfg_type : BfgType
  classname : String
  location : V3
  rotation_euler : V3
  entity_model : String
  light_material : String
  lamp : LampData
  export_mesh : Mesh
  slots : List String
deriving Repr

/-- The scene handed to `ExportMap.execute`: the named object groups
(`bpy.data.groups`) and the scene object list. -/
structure Scene where
  groups : List (String × List SceneObject)
  objects : List SceneObject

/-- `ExportMap.execute` failure: no worldspawn group. -/
inductive ExportErr where
  | missingWorldspawn
deriving DecidableEq, Repr

/-- The exported document: `version` 3, the worldspawn entity's primitives,
and the placed entities as ordered field lists (`OrderedDict`s). -/
structure ExportDoc where
  version : Nat
  worldspawnPrims : List Prim
  entities : List (List (String × PyVal))
deriving Repr

/-- A 3×3 matrix as three rows. -/
abbrev Mat3 := (ℚ × ℚ × ℚ) × (ℚ × ℚ × ℚ) × (ℚ × ℚ × ℚ)

/-- The per-object entity serialization of `ExportMap.execute` (the loop
over `context.scene.objects`).  `toMatrix` stands for mathutils'
`Euler(...).to_matrix()` and `degrees` for `math.degrees` — host math
library collaborators.  Field order is the `OrderedDict` insertion order.
`nospecular`/`nodiffuse` reproduce the source expression
`"%d" % 0 if flag else 1`, which by Python precedence is
`("%d" % 0) if flag else 1`: the string `"0"` when the flag is set, the
integer `1` when it is not. -/
def placedEntityFields (toMatrix : V3 → Mat3) (degrees : ℚ → ℚ)
    (obj : SceneObject) (entityIndex : Nat) : List (String × PyVal) :=
  [("entity", .int entityIndex),
   ("classname",
     .str (if obj.obj_type = .LAMP then "light" else obj.classname)),
   ("name", .str obj.name),
   ("origin",
     .str (ftos (qMul obj.location.1 scaleToGame) ++ " " ++
           ftos (qMul obj.location.2.1 scaleToGame) ++ " " ++
           ftos (qMul obj.location.2.2 scaleToGame)))]
  ++
  (if obj.bfg_type = .ENTITY then
    (if ¬ obj.rotation_euler.2.2 = 0 then
      [("angle", .str (ftos (degrees obj.rotation_euler.2.2)))]
    else [])
  else if obj.bfg_type = .STATIC_MODEL then
    let rot := toMatrix (-obj.rotation_euler.1, -obj.rotation_euler.2.1,
                         -obj.rotation_euler.2.2)
    [("model", .str (obj.entity_model.replace "\\" "/")),
     ("rotation",
       .str (ftos rot.1.1 ++ " " ++ ftos rot.1.2.1 ++ " " ++
             ftos rot.1.2.2 ++ " " ++ ftos rot.2.1.1 ++ " " ++
             ftos rot.2.1.2.1 ++ " " ++ ftos rot.2.1.2.2 ++ " " ++
             ftos rot.2.2.1 ++ " " ++ ftos rot.2.2.2.1 ++ " " ++
             ftos rot.2.2.2.2))]
  else if obj.obj_type = .LAMP then
    [("light_center", .str "0 0 0"),
     ("light_radius",
       .str (ftos (qMul obj.lamp.distance scaleToGame) ++ " " ++
             ftos (qMul obj.lamp.distance scaleToGame) ++ " " ++
             ftos (qMul obj.lamp.distance scaleToGame))),
     ("_color",
       .str (ftos obj.lamp.color.1 ++ " " ++ ftos obj.lamp.color.2.1 ++
             " " ++ ftos obj.lamp.color.2.2)),
     ("nospecular", if obj.lamp.use_specular then .str "0" else .int 1),
     ("nodiffuse", if obj.lamp.use_diffuse then .str "0" else .int 1)]
    ++ (if ¬ obj.light_material = "default" then
         [("texture", .str obj.light_material)]
       else [])
  else [])

/-- The filter selecting which scene objects are exported as entities. -/
def isExportedEntity (obj : SceneObject) : Bool :=
  obj.bfg_type = .ENTITY ∨ obj.bfg_type = .STATIC_MODEL ∨
    obj.obj_type = .LAMP

/-- `ExportMap.execute`: fails with the `MissingWorldspawn` report — and
writes nothing — when no group named `worldspawn` exists; otherwise builds
the version-3 document (worldspawn primitives in group order, then the
placed entities with indices from 1) and only then writes it out.  The
returned document stands for the written file. -/
def exportExecute (toMatrix : V3 → Mat3) (degrees : ℚ → ℚ)
    (scene : Scene) : Except ExportErr ExportDoc :=
  match scene.groups.find? (fun g => g.1 = "worldspawn") with
  | none => .error .missingWorldspawn
  | some g =>
    let prims := g.2.enum.map (fun io => createPrimitive io.2.export_mesh io.2.slots io.1)
    let placed := scene.objects.filter isExportedEntity
    let ents := placed.enum.map
      (fun io => placedEntityFields toMatrix degrees io.2 (io.1 + 1))
    .ok { version := 3, worldspawnPrims := prims, entities := ents }

/-! Concrete test fixtures. -/

/-- Corner (vertex) lists of the six quad faces of a unit cube over the
eight vertices numbered by coordinate bits. -/
def cubeQuadCorners : List (List Nat) :=
  [[0, 1, 3, 2], [4, 5, 7, 6], [0, 1, 5, 4],
   [2, 3, 7, 6], [0, 2, 6, 4], [1, 3, 7, 5]]

/-- The cube of the spec's export example — six independently UV-unwrapped
quad faces, no UV shared across faces — as `create_primitive` receives it,
i.e. after the host triangulation: each quad `[a,b,c,d]` becomes the two
triangles `[a,b,c]` and `[a,c,d]`, each new corner keeping its original
corner's UV (face `f`, corner `j` carries UV `(f, j)`).  8 distinct
positions, 24 distinct (vertex, UV) pairs, 12 triangles, 36 corners. -/
def cubeMesh : Mesh :=
  { vertices := (List.range 8).map (fun i =>
      { co := ((i % 2 : Nat), ((i / 2) % 2 : Nat), ((i / 4) % 2 : Nat)),
        normal := (0, 0, 1) })
    loops := cubeQuadCorners.flatMap (fun q =>
      match q with
      | [a, b, c, d] => [a, b, c, a, c, d].map (fun v => (⟨v⟩ : MLoop))
      | _ => [])
    uv := (List.range 6).flatMap (fun f =>
      [((f : ℚ), 0), ((f : ℚ), 1), ((f : ℚ), 2),
       ((f : ℚ), 0), ((f : ℚ), 2), ((f : ℚ), 3)])
    polygons := (List.range 6).flatMap (fun f =>
      [⟨0, [6 * f, 6 * f + 1, 6 * f + 2]⟩,
       ⟨0, [6 * f + 3, 6 * f + 4, 6 * f + 5]⟩]) }

/-- Material slots of the cube test object. -/
def cubeSlots : List String := ["textures/base_wall/test"]

/-- A lamp object with the specular shading term disabled. -/
def lampObj : SceneObject :=
  { name := "l1", obj_type := .LAMP, bfg_type := .NONE, classname := "",
    location := (1, 2, 3), rotation_euler := (0, 0, 0), entity_model := "",
    light_material := "default",
    lamp := { distance := 5, color := (1, mkRat 1 2, 0),
              use_specular := false, use_diffuse := true },
    export_mesh := ⟨[], [], [], []⟩, slots := [] }

/-- A scene holding an (empty) worldspawn group and the test lamp. -/
def lampScene : Scene :=
  { groups := [("worldspawn", [])], objects := [lampObj] }

/-- The same scene with no worldspawn group. -/
def noWorldspawnScene : Scene :=
  { groups := [], objects := [lampObj] }

/-- A stand-in for the host's `Euler.to_matrix` (unused by the lamp and
missing-worldspawn runs, which have no static models). -/
def idMat3 : V3 → Mat3 :=
  fun _ => ((1, 0, 0), (0, 1, 0), (0, 0, 1))

/-! Helper lemmas. -/

/-- `skip_whitespace` does nothing when the head character is printable and
does not open a comment. -/
theorem skipWhitespaceF_stop (fuel : Nat) (c : Char) (l : List Char)
    (line : Nat) (h1 : ¬ c = '\n') (h2 : ¬ c.toNat ≤ 32)
    (h3 : ¬ (c = '/' ∧ l.head? = some '/'))
    (h4 : ¬ (c = '/' ∧ l.head? = some '*')) :
    skipWhitespaceF (fuel + 1) (c :: l) line = (c :: l, line) := by
  simp only [skipWhitespaceF, if_neg h1, if_neg h2, if_neg h3, if_neg h4]

/-- `skipWhitespace` version of `skipWhitespaceF_stop`. -/
theorem skipWhitespace_stop (c : Char) (l : List Char) (line : Nat)
    (h1 : ¬ c = '\n') (h2 : ¬ c.toNat ≤ 32)
    (h3 : ¬ (c = '/' ∧ l.head? = some '/'))
    (h4 : ¬ (c = '/' ∧ l.head? = some '*')) :
    skipWhitespace (c :: l) line = (c :: l, line) := by
  show skipWhitespaceF ((c :: l).length + 1) (c :: l) line = (c :: l, line)
  rw [List.length_cons]
  exact skipWhitespaceF_stop (l.length + 1) c l line h1 h2 h3 h4

/-- `parse_token` on such a head reduces to the accumulation loop. -/
theorem parseTok_eq (c : Char) (l : List Char) (line : Nat)
    (h1 : ¬ c = '\n') (h2 : ¬ c.toNat ≤ 32)
    (h3 : ¬ (c = '/' ∧ l.head? = some '/'))
    (h4 : ¬ (c = '/' ∧ l.head? = some '*')) :
    parseTok ⟨c :: l, line⟩ =
      match parseTokenLoop (c :: l) [] with
      | .error e => .error e
      | .ok (t, remaining) => .ok (some t, ⟨remaining, line⟩) := by
  unfold parseTok
  rw [skipWhitespace_stop c l line h1 h2 h3 h4]

/-- A quote heading the token enters the quoted-token scan. -/
theorem parseTokenLoop_quoteStart (t : List Char) :
    parseTokenLoop ('"' :: t) [] = parseQuoted t [] := by
  simp [parseTokenLoop]

/-- A quote after accumulated characters is the unexpected-quote error. -/
theorem parseTokenLoop_quoteMid (t acc : List Char) (h : ¬ acc = []) :
    parseTokenLoop ('"' :: t) acc = .error .unexpectedQuote := by
  simp [parseTokenLoop, h]

/-- A word character is accumulated and the scan continues. -/
theorem parseTokenLoop_word (c : Char) (t acc : List Char)
    (hq : ¬ c = '"')
    (hcm : ¬ (c = '/' ∧ (t.head? = some '/' ∨ t.head? = some '*')))
    (hw : validTokenChars.contains c = true) :
    parseTokenLoop (c :: t) acc = parseTokenLoop t (c :: acc) := by
  simp only [parseTokenLoop, if_neg hq, if_neg hcm, hw, if_true]

/-- No character followed by a quote opens a `//` comment. -/
theorem quote_head_not_slash (c : Char) (t : List Char) :
    ¬ (c = '/' ∧ (('"' :: t).head? = some '/')) := by
  intro h
  rw [List.head?_cons] at h
  exact absurd (Option.some.inj h.2) (by decide)

/-- No character followed by a quote opens a `/*` comment. -/
theorem quote_head_not_star (c : Char) (t : List Char) :
    ¬ (c = '/' ∧ (('"' :: t).head? = some '*')) := by
  intro h
  rw [List.head?_cons] at h
  exact absurd (Option.some.inj h.2) (by decide)

/-- Combined form of the two lemmas above. -/
theorem quote_head_not_comment (c : Char) (t : List Char) :
    ¬ (c = '/' ∧
        (('"' :: t).head? = some '/' ∨ ('"' :: t).head? = some '*')) := by
  intro h
  rcases h.2 with h' | h' <;> rw [List.head?_cons] at h' <;>
    exact absurd (Option.some.inj h') (by decide)

/-- A quote-free prefix of a quoted token is accumulated verbatim up to the
closing quote. -/
theorem parseQuoted_closes (rest : List Char) :
    ∀ (w acc : List Char), (∀ c ∈ w, ¬ c = '"') →
      parseQuoted (w ++ '"' :: rest) acc =
        .ok ((acc.reverse ++ w).asString, rest) := by
  intro w
  induction w with
  | nil => intro acc _; simp [parseQuoted]
  | cons c w ih =>
    intro acc h
    have hc : ¬ c = '"' := h c (List.mem_cons_self c w)
    rw [List.cons_append]
    show (if c = '"' then _ else parseQuoted (w ++ '"' :: rest) (c :: acc)) = _
    rw [if_neg hc, ih (c :: acc) (fun x hx => h x (List.mem_cons_of_mem c hx))]
    simp

/-- A quote-free remainder with no closing quote raises "eof in quoted
token". -/
theorem parseQuoted_eof :
    ∀ (w acc : List Char), (∀ c ∈ w, ¬ c = '"') →
      parseQuoted w acc = .error .eofInQuote := by
  intro w
  induction w with
  | nil => intro acc _; rfl
  | cons c w ih =>
    intro acc h
    have hc : ¬ c = '"' := h c (List.mem_cons_self c w)
    show (if c = '"' then _ else parseQuoted w (c :: acc)) = _
    rw [if_neg hc, ih (c :: acc) (fun x hx => h x (List.mem_cons_of_mem c hx))]

/-- Every word character is printable (not a newline, above the space
code) and is neither a quote nor a brace. -/
theorem validTokenChars_facts :
    ∀ c ∈ validTokenChars, ¬ c = '\n' ∧ ¬ c.toNat ≤ 32 ∧ ¬ c = '"' := by
  decide

/-- One `vert_map` append step preserves the number of slots. -/
theorem vmStep_length (mesh : Mesh) (vm : List (List Nat)) (li : Nat) :
    (vmStep mesh vm li).length = vm.length := by
  simp [vmStep]

/-- The whole `vert_map` fold preserves the number of slots. -/
theorem foldl_vmStep_length (mesh : Mesh) (L : List Nat) :
    ∀ (init : List (List Nat)),
      (L.foldl (vmStep mesh) init).length = init.length := by
  induction L with
  | nil => intro init; rfl
  | cons li L ih =>
    intro init
    rw [List.foldl_cons, ih, vmStep_length]

/-- Appending one element to an in-range slot grows the total entry count
by one. -/
theorem sum_map_length_setappend :
    ∀ (l : List (List Nat)) (v : Nat) (x : Nat), v < l.length →
      ((l.set v (l.getD v [] ++ [x])).map List.length).sum =
        (l.map List.length).sum + 1 := by
  intro l
  induction l with
  | nil => intro v x h; exact absurd h (by simp)
  | cons a l ih =>
    intro v x h
    cases v with
    | zero =>
      simp [List.length_append]
      omega
    | succ w =>
      have hw : w < l.length := by simpa using h
      simp only [List.set_cons_succ, List.getD_cons_succ, List.map_cons,
        List.sum_cons, ih w x hw]
      omega

/-- Every recorded (vertex, corner) use grows the `vert_map` entry count by
exactly one, provided every corner's source vertex is in range. -/
theorem foldl_vmStep_sum (mesh : Mesh) :
    ∀ (L : List Nat) (init : List (List Nat)),
      (∀ li ∈ L, (mesh.loops.getD li ⟨0⟩).vertex_index < init.length) →
      ((L.foldl (vmStep mesh) init).map List.length).sum =
        (init.map List.length).sum + L.length := by
  intro L
  induction L with
  | nil => intro init _; simp
  | cons li L ih =>
    intro init h
    have hv : (mesh.loops.getD li ⟨0⟩).vertex_index < init.length :=
      h li (List.mem_cons_self li L)
    have hlen : (vmStep mesh init li).length = init.length :=
      vmStep_length mesh init li
    rw [List.foldl_cons,
      ih (vmStep mesh init li)
        (fun x hx => by rw [hlen]; exact h x (List.mem_cons_of_mem li hx))]
    have hstep : ((vmStep mesh init li).map List.length).sum =
        (init.map List.length).sum + 1 := by
      simp only [vmStep]
      exact sum_map_length_setappend init _ li hv
    rw [hstep, List.length_cons]
    omega

/-- The `vert_map` has one slot per source vertex. -/
theorem vertMapLists_length (mesh : Mesh) :
    (vertMapLists mesh).length = mesh.vertices.length := by
  rw [vertMapLists, foldl_vmStep_length, List.length_replicate]

/-- For a valid mesh the `verts` array has exactly one output vertex per
(vertex, corner) use — the total number of polygon corners. -/
theorem primVerts_length (mesh : Mesh)
    (Hv : ∀ l ∈ mesh.loops, l.vertex_index < mesh.vertices.length)
    (Hl : ∀ li ∈ mesh.polygons.flatMap (fun p => p.loop_indices),
            li < mesh.loops.length) :
    (primVerts mesh).length =
      (mesh.polygons.flatMap (fun p => p.loop_indices)).length := by
  have hlen : (vertMapLists mesh).length = mesh.vertices.length :=
    vertMapLists_length mesh
  rw [primVerts, List.length_flatMap]
  simp only [Function.comp_def, List.length_map]
  rw [show (fun p : MVertex × List Nat => p.2.length) =
      (List.length ∘ Prod.snd) from rfl]
  rw [← List.map_map, List.map_snd_zip _ _ (le_of_eq hlen)]
  rw [vertMapLists,
    foldl_vmStep_sum mesh _ _
      (fun li hli => by
        rw [List.length_replicate]
        rw [List.getD_eq_getElem mesh.loops ⟨0⟩ (Hl li hli)]
        exact Hv _ (List.getElem_mem (Hl li hli)))]
  simp

/-! Claim theorems. -/

/-- C10: `ftos` formats with fixed (six-digit) decimal precision, strips
trailing zero digits, then strips a trailing decimal point if one remains;
in particular `ftos 1.5 = "1.5"`, `ftos 2.0 = "2"`, `ftos 0.125 =
"0.125"`. -/
theorem C10_ftos :
    (∀ a : ℚ, ftos a = pyRstrip (pyRstrip (formatF a) '0') '.') ∧
    ftos (1.5 : ℚ) = "1.5" ∧ ftos (2.0 : ℚ) = "2" ∧
    ftos (0.125 : ℚ) = "0.125" := by
  refine ⟨fun a => rfl, ?_, ?_, ?_⟩
  · rw [show (1.5 : ℚ) = mkRat 3 2 by rw [Rat.mkRat_eq_div]; norm_num]
    decide
  · rw [show (2.0 : ℚ) = mkRat 2 1 by rw [Rat.mkRat_eq_div]; norm_num]
    decide
  · rw [show (0.125 : ℚ) = mkRat 1 8 by rw [Rat.mkRat_eq_div]; norm_num]
    decide

/-- C9: a token starting with a double quote lexes to the verbatim content
up to the next quote (no escape processing) — so `"a b c"` yields the
single token `a b c` —; a quote met after the scan has consumed word
characters fails with the unexpected-quote error; end of input before the
closing quote fails with the unterminated-quote error. -/
theorem C9_quoted_token :
    (∀ (w rest : List Char) (line : Nat), (∀ c ∈ w, ¬ c = '"') →
       parseTok ⟨'"' :: (w ++ '"' :: rest), line⟩ =
         .ok (some w.asString, ⟨rest, line⟩)) ∧
    (∀ (c : Char) (rest : List Char) (line : Nat), c ∈ validTokenChars →
       parseTok ⟨c :: '"' :: rest, line⟩ = .error .unexpectedQuote) ∧
    (∀ (w : List Char) (line : Nat), (∀ c ∈ w, ¬ c = '"') →
       parseTok ⟨'"' :: w, line⟩ = .error .eofInQuote) ∧
    parseTok ⟨"\"a b c\"".toList, 1⟩ = .ok (some "a b c", ⟨[], 1⟩) := by
  refine ⟨?_, ?_, ?_, by decide⟩
  · intro w rest line h
    rw [parseTok_eq '"' (w ++ '"' :: rest) line (by decide) (by decide)
      (fun hh => absurd hh.1 (by decide)) (fun hh => absurd hh.1 (by decide))]
    rw [parseTokenLoop_quoteStart, parseQuoted_closes rest w [] h]
    simp
  · intro c rest line hc
    obtain ⟨h1, h2, h3⟩ := validTokenChars_facts c hc
    have hcont : validTokenChars.contains c = true :=
      List.elem_eq_true_of_mem hc
    rw [parseTok_eq c ('"' :: rest) line h1 h2 (quote_head_not_slash c rest)
      (quote_head_not_star c rest)]
    rw [parseTokenLoop_word c ('"' :: rest) [] h3
      (quote_head_not_comment c rest) hcont]
    rw [parseTokenLoop_quoteMid rest [c] (by simp)]
  · intro w line h
    rw [parseTok_eq '"' w line (by decide) (by decide)
      (fun hh => absurd hh.1 (by decide)) (fun hh => absurd hh.1 (by decide))]
    rw [parseTokenLoop_quoteStart, parseQuoted_eof w [] h]

/-- C9 witness: the three quoted-token behaviours at concrete inputs. -/
theorem C9_quoted_token_witness :
    parseTok ⟨'"' :: ("abc".toList ++ '"' :: " x".toList), 1⟩ =
      .ok (some ("abc".toList).asString, ⟨" x".toList, 1⟩) ∧
    parseTok ⟨'a' :: '"' :: [], 1⟩ = .error .unexpectedQuote ∧
    parseTok ⟨'"' :: "abc".toList, 1⟩ = .error .eofInQuote := by
  refine ⟨?_, ?_, ?_⟩
  · exact C9_quoted_token.1 "abc".toList " x".toList 1 (by decide)
  · exact C9_quoted_token.2.1 'a' [] 1 (by decide)
  · exact C9_quoted_token.2.2.1 "abc".toList 1 (by decide)

/-- C5: after its opening token, `skip_bracket_delimiter_section` counts
nested open/close tokens from one outstanding closing and, if the token
stream ends before the count reaches zero, returns normally with no error;
the brace-tracked body scans of the material and entity parsers likewise
stop silently at end of input, returning the decl scanned so far, and the
top-level loops end-of-input arms return the table with every committed
decl. -/
theorem C5_lenient_eof :
    (∀ (fuel : Nat) (s : LexState) (o c : String) (s₀ : LexState),
       expectToken s o = .ok s₀ →
       skipBracketDelimiterSection fuel s o c =
         skipBracketLoop fuel s₀ o c 1) ∧
    (∀ (fuel : Nat) (s s' : LexState) (o c : String) (n : Int),
       parseTok s = .ok (none, s') →
       skipBracketLoop (fuel + 1) s o c n = .ok s') ∧
    (∀ (fuel : Nat) (s s' : LexState) (o c t : String) (n : Int),
       parseTok s = .ok (some t, s') → t = o →
       skipBracketLoop (fuel + 1) s o c n =
         skipBracketLoop fuel s' o c (n + 1)) ∧
    (∀ (fuel : Nat) (s s' : LexState) (o c t : String) (n : Int),
       parseTok s = .ok (some t, s') → ¬ t = o → t = c →
       skipBracketLoop (fuel + 1) s o c n =
         if n - 1 = 0 then .ok s' else skipBracketLoop fuel s' o c (n - 1)) ∧
    (∀ (fuel : Nat) (s s' : LexState) (nrc : Int) (st : StageSt)
        (decl : MaterialDecl), parseTok s = .ok (none, s') →
       parseMatBody (fuel + 1) s nrc st decl = .ok (decl, s')) ∧
    (∀ (fuel : Nat) (s s' : LexState) (nrc : Int) (ent : EntityRec),
       parseTok s = .ok (none, s') →
       parseDefBody (fuel + 1) s nrc ent = .ok (ent, s')) ∧
    (∀ (fuel : Nat) (s s' : LexState) (mats : List MaterialDecl)
        (cr up : Nat), parseTok s = .ok (none, s') →
       parseMatTop (fuel + 1) s mats cr up = .ok (mats, cr, up)) ∧
    (∀ (fuel : Nat) (s s' : LexState) (ents : List EntityRec) (cr up : Nat),
       parseTok s = .ok (none, s') →
       parseDefTop (fuel + 1) s ents cr up = .ok (ents, cr, up)) := by
  refine ⟨?_, ?_, ?_, ?_, ?_, ?_, ?_, ?_⟩
  · intro fuel s o c s₀ h; simp [skipBracketDelimiterSection, h]
  · intro fuel s s' o c n h; simp [skipBracketLoop, h]
  · intro fuel s s' o c t n h ho; simp [skipBracketLoop, h, ho]
  · intro fuel s s' o c t n h ho hc; subst hc; simp [skipBracketLoop, h, ho]
  · intro fuel s s' nrc st decl h; simp [parseMatBody, h]
  · intro fuel s s' nrc ent h; simp [parseDefBody, h]
  · intro fuel s s' mats cr up h; simp [parseMatTop, h]
  · intro fuel s s' ents cr up h; simp [parseDefTop, h]

/-- C5 witness: the lenient end-of-input behaviour at concrete states. -/
theorem C5_lenient_eof_witness :
    skipBracketDelimiterSection 5 ⟨"\x7b".toList, 1⟩ "\x7b" "\x7d" =
      skipBracketLoop 5 ⟨[], 1⟩ "\x7b" "\x7d" 1 ∧
    skipBracketLoop 5 ⟨[], 1⟩ "\x7b" "\x7d" 3 = .ok ⟨[], 1⟩ ∧
    parseMatBody 5 ⟨[], 1⟩ 2 ⟨false, none, 0, none⟩ { name := "m" } =
      .ok ({ name := "m" }, ⟨[], 1⟩) ∧
    parseDefBody 5 ⟨[], 1⟩ 2 (resetEnt "e") = .ok (resetEnt "e", ⟨[], 1⟩) := by
  refine ⟨?_, ?_, ?_, ?_⟩
  · exact C5_lenient_eof.1 5 ⟨"\x7b".toList, 1⟩ "\x7b" "\x7d" ⟨[], 1⟩
      (by decide)
  · exact C5_lenient_eof.2.1 4 ⟨[], 1⟩ ⟨[], 1⟩ "\x7b" "\x7d" 3 (by decide)
  · exact C5_lenient_eof.2.2.2.2.1 4 ⟨[], 1⟩ ⟨[], 1⟩ 2 ⟨false, none, 0, none⟩
      { name := "m" } (by decide)
  · exact C5_lenient_eof.2.2.2.2.2.1 4 ⟨[], 1⟩ ⟨[], 1⟩ 2 (resetEnt "e")
      (by decide)

/-- C3 (amended): the entity body scan interprets the four `editor_*` keys
at EVERY brace depth inside the body — the `elif` chain performs no depth
test — each consuming exactly one following token verbatim as its value;
braces contribute only depth bookkeeping, and every other key is ignored. -/
theorem C3_editor_keys_any_depth :
    (∀ (fuel : Nat) (s s₁ s₂ : LexState) (nrc : Int) (ent : EntityRec)
        (v : String),
       parseTok s = .ok (some "editor_color", s₁) →
       parseTok s₁ = .ok (some v, s₂) →
       parseDefBody (fuel + 1) s nrc ent =
         parseDefBody fuel s₂ nrc { ent with color := v }) ∧
    (∀ (fuel : Nat) (s s₁ s₂ : LexState) (nrc : Int) (ent : EntityRec)
        (v : String),
       parseTok s = .ok (some "editor_mins", s₁) →
       parseTok s₁ = .ok (some v, s₂) →
       parseDefBody (fuel + 1) s nrc ent =
         parseDefBody fuel s₂ nrc { ent with mins := v }) ∧
    (∀ (fuel : Nat) (s s₁ s₂ : LexState) (nrc : Int) (ent : EntityRec)
        (v : String),
       parseTok s = .ok (some "editor_maxs", s₁) →
       parseTok s₁ = .ok (some v, s₂) →
       parseDefBody (fuel + 1) s nrc ent =
         parseDefBody fuel s₂ nrc { ent with maxs := v }) ∧
    (∀ (fuel : Nat) (s s₁ s₂ : LexState) (nrc : Int) (ent : EntityRec)
        (v : String),
       parseTok s = .ok (some "editor_usage", s₁) →
       parseTok s₁ = .ok (some v, s₂) →
       parseDefBody (fuel + 1) s nrc ent =
         parseDefBody fuel s₂ nrc { ent with usage := v }) ∧
    (∀ (fuel : Nat) (s s' : LexState) (nrc : Int) (ent : EntityRec)
        (t : String),
       parseTok s = .ok (some t, s') →
       ¬ t = "\x7b" → ¬ t = "\x7d" → ¬ t = "editor_color" →
       ¬ t = "editor_mins" → ¬ t = "editor_maxs" → ¬ t = "editor_usage" →
       parseDefBody (fuel + 1) s nrc ent = parseDefBody fuel s' nrc ent) := by
  refine ⟨?_, ?_, ?_, ?_, ?_⟩
  · intro fuel s s₁ s₂ nrc ent v h1 h2; simp [parseDefBody, h1, h2]
  · intro fuel s s₁ s₂ nrc ent v h1 h2; simp [parseDefBody, h1, h2]
  · intro fuel s s₁ s₂ nrc ent v h1 h2; simp [parseDefBody, h1, h2]
  · intro fuel s s₁ s₂ nrc ent v h1 h2; simp [parseDefBody, h1, h2]
  · intro fuel s s' nrc ent t h h1 h2 h3 h4 h5 h6
    simp [parseDefBody, h, h1, h2, h3, h4, h5, h6]

/-- C3 counterexample: an `editor_color` occurrence at brace depth 2 inside
an `entityDef` body is interpreted — the record's color becomes `1 1 1`
instead of remaining at the claimed untouched default `0 0 1`. -/
theorem C3_depth2_counterexample :
    parseDefFile 100
        "entityDef foo \x7b \x7b editor_color \"1 1 1\" \x7d \x7d" [] =
      .ok ([⟨"foo", "1 1 1", "", "", ""⟩], 1, 0) ∧
    ¬ ("1 1 1" = "0 0 1") := by
  exact ⟨by decide, by decide⟩

/-- C3 witness: the depth-insensitive key step at a concrete depth-2
state. -/
theorem C3_editor_keys_witness :
    parseDefBody 3 ⟨"editor_color v \x7d".toList, 1⟩ 2 (resetEnt "foo") =
      parseDefBody 2 ⟨" \x7d".toList, 1⟩ 2
        { resetEnt "foo" with color := "v" } := by
  exact C3_editor_keys_any_depth.1 2 ⟨"editor_color v \x7d".toList, 1⟩
    ⟨" v \x7d".toList, 1⟩ ⟨" \x7d".toList, 1⟩ 2 (resetEnt "foo") "v"
    (by decide) (by decide)

/-- C6: re-parsing an `entityDef` whose name already exists resets all four
attributes to their defaults before the body is rescanned, so the last
declaration fully replaces the attributes (no merge), and the pass counts
it as updated, not created; in particular re-declaring a previously richer
`foo` as `entityDef foo {}` leaves exactly the default attributes with
counts `(created, updated) = (0, 1)`. -/
theorem C6_reset_then_rescan :
    (∀ (fuel : Nat) (s s₁ s₂ : LexState) (table : List EntityRec)
        (cr up : Nat) (n : String) (rec : EntityRec) (s₃ : LexState),
       parseTok s = .ok (some "entityDef", s₁) →
       parseTok s₁ = .ok (some n, s₂) →
       parseDefOne fuel s₂ n = .ok (rec, s₃) →
       parseDefTop (fuel + 1) s table cr up =
         parseDefTop fuel s₃ (storeEntity table n rec)
           (if (findEntity table n).isSome then cr else cr + 1)
           (if (findEntity table n).isSome then up + 1 else up)) ∧
    (∀ (fuel : Nat) (s : LexState) (n : String) (s' : LexState),
       expectToken s "\x7b" = .ok s' →
       parseDefOne fuel s n = parseDefBody fuel s' 1 (resetEnt n)) ∧
    parseDefFile 100
        "entityDef foo \x7b editor_color \"1 0 0\" editor_mins \"-8 -8 -8\" editor_maxs \"8 8 8\" editor_usage \"monster\" \x7d"
        [] =
      .ok ([⟨"foo", "1 0 0", "monster", "-8 -8 -8", "8 8 8"⟩], 1, 0) ∧
    parseDefFile 100 "entityDef foo \x7b\x7d"
        [⟨"foo", "1 0 0", "monster", "-8 -8 -8", "8 8 8"⟩] =
      .ok ([resetEnt "foo"], 0, 1) := by
  refine ⟨?_, ?_, by decide, by decide⟩
  · intro fuel s s₁ s₂ table cr up n rec s₃ h1 h2 h3
    cases hf : (findEntity table n).isSome <;>
      simp [parseDefTop, h1, h2, h3, hf]
  · intro fuel s n s' h; simp [parseDefOne, h]

/-- C6 witness: the reset-then-rescan step at a concrete state and table
holding a previously richer `foo`. -/
theorem C6_reset_then_rescan_witness :
    parseDefTop 11 ⟨"entityDef foo \x7b\x7d".toList, 1⟩
        [⟨"foo", "1 0 0", "monster", "-8 -8 -8", "8 8 8"⟩] 0 0 =
      parseDefTop 10 ⟨[], 1⟩ [resetEnt "foo"] 0 1 ∧
    parseDefOne 10 ⟨" \x7b\x7d".toList, 1⟩ "foo" =
      parseDefBody 10 ⟨"\x7d".toList, 1⟩ 1 (resetEnt "foo") := by
  constructor
  · exact C6_reset_then_rescan.1 10 ⟨"entityDef foo \x7b\x7d".toList, 1⟩
      ⟨" foo \x7b\x7d".toList, 1⟩ ⟨" \x7b\x7d".toList, 1⟩
      [⟨"foo", "1 0 0", "monster", "-8 -8 -8", "8 8 8"⟩] 0 0 "foo"
      (resetEnt "foo") ⟨[], 1⟩ (by decide) (by decide) (by decide)
  · exact C6_reset_then_rescan.2.1 10 ⟨" \x7b\x7d".toList, 1⟩ "foo"
      ⟨"\x7d".toList, 1⟩ (by decide)

/-- C8: on leaving a stage (depth 2 to 1) a captured (truthy) stage texture
is written to the decl's generic `texture` field, and when both a
recognized blend kind and a texture were captured the corresponding typed
field is overwritten — so later stages of the same kind win; in particular
a material with two `diffusemap` stages ends with `diffuseTexture` equal to
the second stage's texture. -/
theorem C8_stage_commit :
    (∀ (fuel : Nat) (s s' : LexState) (st : StageSt) (decl : MaterialDecl),
       parseTok s = .ok (some "\x7d", s') →
       parseMatBody (fuel + 1) s 2 st decl =
         parseMatBody fuel s' 1 { st with in_stage := false }
           (commitStage st decl)) ∧
    (∀ (st : StageSt) (decl : MaterialDecl) (t : String),
       st.stage_texture = some t → ¬ t = "" →
       (commitStage st decl).texture = t) ∧
    (∀ (st : StageSt) (decl : MaterialDecl) (t b : String),
       st.stage_texture = some t → ¬ t = "" → st.stage_blend = some b →
       pyLower b = "diffusemap" →
       (commitStage st decl).diffuse_texture = t) ∧
    (∀ (st : StageSt) (decl : MaterialDecl) (t b : String),
       st.stage_texture = some t → ¬ t = "" → st.stage_blend = some b →
       pyLower b = "bumpmap" →
       (commitStage st decl).normal_texture = t ∧
       (commitStage st decl).heightmap_scale = st.stage_heightmap_scale) ∧
    (∀ (st : StageSt) (decl : MaterialDecl) (t b : String),
       st.stage_texture = some t → ¬ t = "" → st.stage_blend = some b →
       pyLower b = "specularmap" →
       (commitStage st decl).specular_texture = t) ∧
    parseMatFile 100
        "m \x7b \x7b blend diffusemap map a \x7d \x7b blend diffusemap map b \x7d \x7d"
        [] =
      .ok ([⟨"m", "b", "", 0, "", "", "b"⟩], 1, 0) := by
  refine ⟨?_, ?_, ?_, ?_, ?_, by decide⟩
  · intro fuel s s' st decl h
    have e1 : pyLower "\x7d" = "\x7d" := by decide
    simp [parseMatBody, h, e1]
  · intro st decl t ht htne
    simp only [commitStage, pyTruthy, ht]
    split_ifs <;> simp_all
  · intro st decl t b ht htne hb hlow
    have hbne : ¬ b = "" := fun hbe => absurd hlow (by subst hbe; decide)
    simp [commitStage, pyTruthy, ht, htne, hb, hlow, hbne]
  · intro st decl t b ht htne hb hlow
    have hbne : ¬ b = "" := fun hbe => absurd hlow (by subst hbe; decide)
    simp [commitStage, pyTruthy, ht, htne, hb, hlow, hbne]
  · intro st decl t b ht htne hb hlow
    have hbne : ¬ b = "" := fun hbe => absurd hlow (by subst hbe; decide)
    simp [commitStage, pyTruthy, ht, htne, hb, hlow, hbne]

/-- C8 witness: commit step and field writes at concrete stage states. -/
theorem C8_stage_commit_witness :
    parseMatBody 3 ⟨"\x7d \x7d".toList, 1⟩ 2
        ⟨true, some "diffusemap", 0, some "tex"⟩ { name := "m" } =
      parseMatBody 2 ⟨" \x7d".toList, 1⟩ 1
        ⟨false, some "diffusemap", 0, some "tex"⟩
        (commitStage ⟨true, some "diffusemap", 0, some "tex"⟩
          { name := "m" }) ∧
    (commitStage ⟨true, some "diffusemap", 0, some "tex"⟩
        { name := "m" }).texture = "tex" ∧
    (commitStage ⟨true, some "diffusemap", 0, some "tex"⟩
        { name := "m" }).diffuse_texture = "tex" ∧
    (commitStage ⟨true, some "bumpmap", 5, some "tex"⟩
        { name := "m" }).normal_texture = "tex" ∧
    (commitStage ⟨true, some "specularmap", 0, some "tex"⟩
        { name := "m" }).specular_texture = "tex" := by
  refine ⟨?_, ?_, ?_, ?_, ?_⟩
  · exact C8_stage_commit.1 2 ⟨"\x7d \x7d".toList, 1⟩ ⟨" \x7d".toList, 1⟩
      ⟨true, some "diffusemap", 0, some "tex"⟩ { name := "m" } (by decide)
  · exact C8_stage_commit.2.1 ⟨true, some "diffusemap", 0, some "tex"⟩
      { name := "m" } "tex" rfl (by decide)
  · exact C8_stage_commit.2.2.1 ⟨true, some "diffusemap", 0, some "tex"⟩
      { name := "m" } "tex" "diffusemap" rfl (by decide) rfl (by decide)
  · exact (C8_stage_commit.2.2.2.1 ⟨true, some "bumpmap", 5, some "tex"⟩
      { name := "m" } "tex" "bumpmap" rfl (by decide) rfl (by decide)).1
  · exact C8_stage_commit.2.2.2.2.1 ⟨true, some "specularmap", 0, some "tex"⟩
      { name := "m" } "tex" "specularmap" rfl (by decide) rfl (by decide)

/-- C4: evaluating the material parser at the failing input — a decl-body
`bumpmap heightmap(t1,2)` followed by a plain `bumpmap t2` — shows the
plain `bumpmap` assignment overwrites `normal_texture` without resetting
`heightmap_scale`, which stays 2 for a non-height-mapped normal texture,
contradicting the invariant (and the property's own source comment "0 if
normal_texture isn't a heightmap"). -/
theorem C4_heightmap_scale_eval :
    parseMatFile 100
        "material m \x7b bumpmap heightmap(t1,2) bumpmap t2 \x7d" [] =
      .ok ([⟨"m", "", "", 2, "t2", "", ""⟩], 1, 0) ∧
    ¬ ((2 : ℚ) = 0) := by
  exact ⟨by decide, by decide⟩

/-- C1: evaluating the export at the failing input — a lamp with
`use_specular = False` — shows the serialized `nospecular` value is the
JSON integer `1`, not the string `"1"` the claim requires (the Python
conditional `"%d" % 0 if flag else 1` only formats the flag-set branch);
the enabled `nodiffuse` flag does serialize as the string `"0"`. -/
theorem C1_nospecular_eval :
    ((exportExecute idMat3 (fun q => q) lampScene).toOption.map
        (fun d => (d.entities.getD 0 []).lookup "nospecular")) =
      some (some (.int 1)) ∧
    ¬ (PyVal.int 1 = PyVal.str "1") ∧
    ((exportExecute idMat3 (fun q => q) lampScene).toOption.map
        (fun d => (d.entities.getD 0 []).lookup "nodiffuse")) =
      some (some (.str "0")) := by
  exact ⟨by decide, by decide, by decide⟩

/-- C7: with no group named `worldspawn` the export fails with the
`MissingWorldspawn` report and produces no document at all, and a document
is produced only when a worldspawn group exists. -/
theorem C7_missing_worldspawn :
    ∀ (toMatrix : V3 → Mat3) (degrees : ℚ → ℚ) (scene : Scene),
      (scene.groups.find? (fun g => g.1 = "worldspawn") = none →
        exportExecute toMatrix degrees scene = .error .missingWorldspawn) ∧
      (∀ d, exportExecute toMatrix degrees scene = .ok d →
        ¬ scene.groups.find? (fun g => g.1 = "worldspawn") = none) := by
  intro tm dg scene
  constructor
  · intro h; simp [exportExecute, h]
  · intro d hd h; simp [exportExecute, h] at hd

/-- C7 witness: the concrete scene without a worldspawn group fails, and
the scene with one exports a document. -/
theorem C7_missing_worldspawn_witness :
    exportExecute idMat3 (fun q => q) noWorldspawnScene =
      .error .missingWorldspawn ∧
    ¬ noWorldspawnScene.groups.find? (fun g => g.1 = "worldspawn") ≠ none ∧
    ¬ lampScene.groups.find? (fun g => g.1 = "worldspawn") = none := by
  refine ⟨?_, ?_, ?_⟩
  · exact (C7_missing_worldspawn idMat3 (fun q => q) noWorldspawnScene).1 rfl
  · intro h; exact h rfl
  · exact (C7_missing_worldspawn idMat3 (fun q => q) lampScene).2
      { version := 3, worldspawnPrims := [], entities :=
          [placedEntityFields idMat3 (fun q => q) lampObj 1] } rfl

/-- C2 (amended): the serializer emits one distinct output vertex per
(source vertex, face corner) USE of the host-triangulated mesh — corners
are never merged, not even when they share both source vertex and UV —
and every polygon's index list references these split-vertex indices (the
cube's 36 emitted indices are exactly 0..35, each used once, which raw
source vertex indices < 8 could never be).  The spec's quad cube reaches
the serializer as 12 triangles with 36 corners and therefore exports 36
vertices, not 24. -/
theorem C2_vertex_split :
    (∀ (mesh : Mesh) (slots : List String) (idx : Nat),
       (∀ l ∈ mesh.loops, l.vertex_index < mesh.vertices.length) →
       (∀ li ∈ mesh.polygons.flatMap (fun p => p.loop_indices),
          li < mesh.loops.length) →
       (createPrimitive mesh slots idx).verts.length =
         (mesh.polygons.flatMap (fun p => p.loop_indices)).length) ∧
    (createPrimitive cubeMesh cubeSlots 0).verts.length = 36 ∧
    ((createPrimitive cubeMesh cubeSlots 0).polygons.flatMap
        (fun p => p.indices)).length = 36 ∧
    ((createPrimitive cubeMesh cubeSlots 0).polygons.flatMap
        (fun p => p.indices)).dedup.length = 36 ∧
    (∀ i ∈ ((createPrimitive cubeMesh cubeSlots 0).polygons.flatMap
        (fun p => p.indices)), i < 36) := by
  refine ⟨?_, by decide, by decide, by decide, by decide⟩
  · intro mesh slots idx Hv Hl
    exact primVerts_length mesh Hv Hl

/-- C2 counterexample: the cube of the claim — 8 distinct source
positions, 24 distinct (source vertex, UV) corner pairs after the host
triangulation the exporter performs — exports 36 vertices, not the claimed
24: no (vertex, UV)-level merging happens. -/
theorem C2_cube_counterexample :
    ¬ ((createPrimitive cubeMesh cubeSlots 0).verts.length = 24) ∧
    (createPrimitive cubeMesh cubeSlots 0).verts.length = 36 ∧
    ((cubeMesh.polygons.flatMap (fun p => p.loop_indices)).map
        (fun li => ((cubeMesh.loops.getD li ⟨0⟩).vertex_index,
                    cubeMesh.uv.getD li (0, 0)))).dedup.length = 24 ∧
    (cubeMesh.vertices.map (fun v => v.co)).dedup.length = 8 := by
  exact ⟨by decide, by decide, by decide, by decide⟩

/-- C2 witness: the one-vertex-per-corner-use count instantiated at the
triangulated cube. -/
theorem C2_vertex_split_witness :
    (createPrimitive cubeMesh cubeSlots 0).verts.length =
      (cubeMesh.polygons.flatMap (fun p => p.loop_indices)).length := by
  exact C2_vertex_split.1 cubeMesh cubeSlots 0 (by decide) (by decide)

end BfgForge
